import Mathlib

/-
  Shallow embedding of `src/common/thread_pool.py`
  (class `MultiThreadProcessorWithResult` and its helpers).

  Modelling conventions:
  * Python values that a work item produces are nullable; we model the
    produced-value domain as `Option U` for a type parameter `U`
    (Python `None` is `Option.none`).
  * A work item (`original_task`) is opaque; what matters to the engine is
    the outcome of each invocation attempt.  We model a task's behaviour as
    `work : Nat → Except PyExc (Option U)`, giving the outcome of attempt
    number `a` (`Except.error msg` models a raised exception with `str(e) = msg`).
  * Wall-clock readings are exact rationals `ℚ`; the float literal `0.1`
    in `time.sleep(0.1 * (attempt + 1))` is modelled as the rational `1/10`.
  * `concurrent.futures`: `as_completed` yields each future only after it has
    settled, and the resulting completion order is scheduler-dependent; we pass
    that order explicitly as a list `order` of task ids (a permutation of
    `0..N-1`).  `Future.result(timeout=…)` raises `TimeoutError` exactly when
    the future has not settled within `timeout`; this is `futureResult` below,
    with an explicit `settled` flag.
  * The `threading.Lock` and the logger are concurrency/observability
    artifacts with no effect on the tracked state; they are not modelled.
-/

namespace ThreadPool

/-- Python class `TaskStatus`: the six status constants. -/
inductive TaskStatus
  | PENDING
  | RUNNING
  | COMPLETED
  | FAILED
  | TIMEOUT
  | RETRYING
deriving DecidableEq, Repr

/-- Python class `TaskResult` (the per-task record).  The opaque
`original_task` field is represented outside the record by the task's
behaviour function, see the header comment. -/
structure TaskResult (U : Type) where
  task_id : Nat
  result : Option U := none
  status : TaskStatus := TaskStatus.PENDING
  error_message : Option String := none
  start_time : Option ℚ := none
  end_time : Option ℚ := none
  retry_count : Nat := 0
deriving DecidableEq, Repr

/-- The record freshly constructed by `TaskResult(i, task)`. -/
def initRecord (U : Type) (i : Nat) : TaskResult U :=
  { task_id := i }

/-- A Python exception value as `run`'s handlers see it: whether it is an
instance of the builtin `TimeoutError` (which is what the first clause
`except TimeoutError:` matches, checked before `except Exception`), and its
`str(e)` message. -/
structure PyExc where
  isTimeout : Bool
  msg : String
deriving DecidableEq, Repr

/-- Everything `_run_with_retry` produces: the final state of the task's
record, the full sequence of record states it wrote (for invariant claims),
the backoff sleeps it performed (in seconds), and the returned value or the
propagated exception. -/
structure RetryOutcome (U : Type) where
  record : TaskResult U
  trace : List (TaskResult U)
  sleeps : List ℚ
  outcome : Except PyExc (Option U)

/-- The `for attempt in range(self.retry + 1)` loop of `_run_with_retry`,
iterating over the remaining attempt indices with the record in state `r`:
* if `attempt > 0`, set status RETRYING and `retry_count = attempt`;
* invoke the work function (`self.process(task)`);
* on success return the value;
* on failure, if `attempt < retry` sleep `0.1 * (attempt + 1)` seconds and
  continue with the next attempt, else re-raise the exception.
If the loop falls through (unreachable for the actual attempt list, since
the last index equals `retry`), the Python function implicitly returns
`None`. -/
def retryLoop {U : Type} (retry : Nat) (work : Nat → Except PyExc (Option U)) :
    List Nat → TaskResult U → RetryOutcome U
  | [], r =>
      { record := r, trace := [], sleeps := [], outcome := Except.ok none }
  | attempt :: rest, r =>
      let r1 := if 0 < attempt then
          { r with status := TaskStatus.RETRYING, retry_count := attempt }
        else r
      match work attempt with
      | Except.ok v =>
          { record := r1, trace := [r1], sleeps := [], outcome := Except.ok v }
      | Except.error e =>
          if attempt < retry then
            let out := retryLoop retry work rest r1
            { record := out.record, trace := r1 :: out.trace,
              sleeps := (((attempt : ℚ) + 1) / 10) :: out.sleeps,
              outcome := out.outcome }
          else
            { record := r1, trace := [r1], sleeps := [],
              outcome := Except.error e }

/-- `_run_with_retry(task_id)`: records the start time, marks the record
RUNNING, then runs the attempt loop over `range(retry + 1)`.  `t0` is the
`time.time()` reading at entry. -/
def run_with_retry {U : Type} (retry : Nat) (work : Nat → Except PyExc (Option U))
    (t0 : ℚ) (r : TaskResult U) : RetryOutcome U :=
  let r0 := { r with start_time := some t0, status := TaskStatus.RUNNING }
  let ro := retryLoop retry work (List.range (retry + 1)) r0
  { ro with trace := r0 :: ro.trace }

/-- Outcome of `future.result(timeout=…)` as observed by `run`. -/
inductive WaitResult (U : Type)
  | ok (v : Option U)
  | exc (e : PyExc)
  | timedOut
deriving DecidableEq

/-- `future.result(timeout=…)`: raises `TimeoutError` (`timedOut`) exactly
when the future has not settled within `timeout`; otherwise returns the
settled value or re-raises the settled exception.  `run` obtains its futures
from `as_completed`, which yields a future only after it has settled, so in
`run` this is always called with `settled = true`. -/
def futureResult {U : Type} (timeout : ℚ) (settled : Bool)
    (outcome : Except PyExc (Option U)) : WaitResult U :=
  if settled then
    match outcome with
    | Except.ok v => WaitResult.ok v
    | Except.error e => WaitResult.exc e
  else
    WaitResult.timedOut

/-- The state of a `MultiThreadProcessorWithResult` object (its attributes;
the lock is omitted, see the header comment).  `task_results` is the dict
`{0: rec₀, …, N-1: rec_{N-1}}`, represented as the list of records indexed
by task id. -/
structure MultiThreadProcessorWithResult (U : Type) where
  max_workers : Int
  retry : Nat
  timeout : ℚ
  task_results : List (TaskResult U) := []
  total_tasks : Nat := 0
  completed_tasks : Nat := 0

namespace MultiThreadProcessorWithResult

/-- `__init__(max_workers, retry, timeout)`: stores the three configuration
values unchanged.  The source performs no validation and has no raise path,
so the constructor always returns normally (`Except.ok`). -/
def init (U : Type) (max_workers : Int) (retry : Nat) (timeout : ℚ) :
    Except String (MultiThreadProcessorWithResult U) :=
  Except.ok { max_workers := max_workers, retry := retry, timeout := timeout }

/-- The body of `run`'s `for future in as_completed(...)` loop for the task
with id `i`: the worker's `_run_with_retry` settles the future, then the
main loop calls `future.result(timeout=…)` on the (already settled) future,
classifies the outcome, and in the `finally` block stamps `end_time`.
Python matches the except clauses in order: the first clause
`except TimeoutError:` catches both the wait-timeout raise (`timedOut`,
never produced on a settled future) and a work-raised exception that is an
instance of the builtin `TimeoutError` (`e.isTimeout`), assigning status
TIMEOUT with the fixed message and discarding `str(e)`; only the remaining
exceptions reach `except Exception as e:` and become FAILED with `str(e)`.
Returns the record's final state and the element appended to `results`
(`None` for the TIMEOUT and FAILED branches). -/
def processTask {U : Type} (retry : Nat) (timeout : ℚ)
    (work : Nat → Nat → Except PyExc (Option U)) (startT endT : Nat → ℚ)
    (i : Nat) : TaskResult U × Option U :=
  let ro := run_with_retry retry (work i) (startT i) (initRecord U i)
  match futureResult timeout true ro.outcome with
  | WaitResult.ok v =>
      ({ ro.record with
          result := v,
          status := TaskStatus.COMPLETED,
          end_time := some (endT i) }, v)
  | WaitResult.exc e =>
      if e.isTimeout then
        ({ ro.record with
            status := TaskStatus.TIMEOUT,
            error_message := some "任务执行超时",
            end_time := some (endT i) }, none)
      else
        ({ ro.record with
            status := TaskStatus.FAILED,
            error_message := some e.msg,
            end_time := some (endT i) }, none)
  | WaitResult.timedOut =>
      ({ ro.record with
          status := TaskStatus.TIMEOUT,
          error_message := some "任务执行超时",
          end_time := some (endT i) }, none)

/-- One iteration of `run`'s collection loop threading the mutable pieces:
the record table, the `completed_tasks` counter, and the `results` list. -/
def runStep {U : Type} (retry : Nat) (timeout : ℚ)
    (work : Nat → Nat → Except PyExc (Option U)) (startT endT : Nat → ℚ)
    (acc : List (TaskResult U) × Nat × List (Option U)) (i : Nat) :
    List (TaskResult U) × Nat × List (Option U) :=
  let p := processTask retry timeout work startT endT i
  (acc.1.set i p.1, acc.2.1 + 1, acc.2.2 ++ [p.2])

/-- `run(tasks)` for a batch of `N` tasks whose behaviours are `work`
(task id → attempt → outcome): resets the counters, creates one fresh
record per task (ids `0..N-1` in input order), then opens
`ThreadPoolExecutor(max_workers=…)` — which raises
`ValueError("max_workers must be greater than 0")` when `max_workers ≤ 0` —
submits every task, and processes the futures in the completion order
`order` delivered by `as_completed`.  `startT i` / `endT i` are the
`time.time()` readings at task `i`'s start and at its `finally` block.
Returns the final object state together with the returned `results` list,
or the propagated constructor error. -/
def run {U : Type} (st : MultiThreadProcessorWithResult U) (N : Nat)
    (work : Nat → Nat → Except PyExc (Option U)) (startT endT : Nat → ℚ)
    (order : List Nat) :
    MultiThreadProcessorWithResult U × Except String (List (Option U)) :=
  let records0 := (List.range N).map (initRecord U)
  if st.max_workers ≤ 0 then
    ({ st with total_tasks := N, completed_tasks := 0, task_results := records0 },
     Except.error "max_workers must be greater than 0")
  else
    let f := order.foldl (runStep st.retry st.timeout work startT endT)
      (records0, 0, [])
    ({ st with total_tasks := N, completed_tasks := f.2.1, task_results := f.1 },
     Except.ok f.2.2)

end MultiThreadProcessorWithResult

/-! ### Python floats, as used by `get_statistics`

`get_statistics` computes
`max((r.end_time or 0) …) - min((r.start_time or float('inf')) …)` and then
substitutes `0` when the difference equals `float('inf')`.  The float values
that can arise there are exact rationals and the two infinities; IEEE
arithmetic is exact on them for the operations used, so we model them
directly. -/

/-- A Python float as used in `get_statistics`: a finite (exact) value or one
of the two infinities. -/
inductive PyFloat
  | fin (q : ℚ)
  | inf
  | ninf
deriving DecidableEq, Repr

/-- Float subtraction.  The two `inf - inf` style cases would be IEEE NaN;
they are unreachable in the modelled computation (its left operand is always
finite) and are given an arbitrary value. -/
def PyFloat.sub : PyFloat → PyFloat → PyFloat
  | PyFloat.fin a, PyFloat.fin b => PyFloat.fin (a - b)
  | PyFloat.fin _, PyFloat.inf => PyFloat.ninf
  | PyFloat.fin _, PyFloat.ninf => PyFloat.inf
  | PyFloat.inf, PyFloat.fin _ => PyFloat.inf
  | PyFloat.inf, PyFloat.ninf => PyFloat.inf
  | PyFloat.inf, PyFloat.inf => PyFloat.fin 0
  | PyFloat.ninf, PyFloat.fin _ => PyFloat.ninf
  | PyFloat.ninf, PyFloat.inf => PyFloat.ninf
  | PyFloat.ninf, PyFloat.ninf => PyFloat.fin 0

/-- Float comparison `x <= y`. -/
def PyFloat.le : PyFloat → PyFloat → Bool
  | PyFloat.ninf, _ => true
  | _, PyFloat.inf => true
  | PyFloat.fin a, PyFloat.fin b => decide (a ≤ b)
  | PyFloat.inf, _ => false
  | PyFloat.fin _, PyFloat.ninf => false

/-- Binary maximum on floats (as Python's `max` compares). -/
def PyFloat.max (x y : PyFloat) : PyFloat :=
  if PyFloat.le x y then y else x

/-- Binary minimum on floats (as Python's `min` compares). -/
def PyFloat.min (x y : PyFloat) : PyFloat :=
  if PyFloat.le y x then y else x

/-- Python `max(xs)` over a generator; raising on an empty iterable is not
modelled — `get_statistics` only evaluates it on a non-empty collection, and
the `[]` case is given an arbitrary value. -/
def pyMaxList : List PyFloat → PyFloat
  | [] => PyFloat.ninf
  | x :: xs => xs.foldl PyFloat.max x

/-- Python `min(xs)` over a generator; see `pyMaxList` about `[]`. -/
def pyMinList : List PyFloat → PyFloat
  | [] => PyFloat.inf
  | x :: xs => xs.foldl PyFloat.min x

/-- Python `r.end_time or 0` (the record's times are positive when set, so
`or` only substitutes for `None`). -/
def orZero : Option ℚ → PyFloat
  | some q => PyFloat.fin q
  | none => PyFloat.fin 0

/-- Python `r.start_time or float('inf')` (same remark as `orZero`). -/
def orInf : Option ℚ → PyFloat
  | some q => PyFloat.fin q
  | none => PyFloat.inf

/-- The six status values, for summing the status breakdown. -/
def allStatuses : List TaskStatus :=
  [TaskStatus.PENDING, TaskStatus.RUNNING, TaskStatus.COMPLETED,
   TaskStatus.FAILED, TaskStatus.TIMEOUT, TaskStatus.RETRYING]

/-- The dictionary returned by `get_statistics` when `task_results` is
non-empty: total task count, completed count, the per-status breakdown
(`状态统计`, extensionally a count per status value), and the total
wall-clock span (`总耗时(秒)`). -/
structure Stats where
  total : Nat
  completed : Nat
  counts : TaskStatus → Nat
  total_time : PyFloat

namespace MultiThreadProcessorWithResult

/-- `get_statistics()`: on an empty `task_results` the source returns the
marker dict `{"status": "未执行任务"}`, modelled as `none`; otherwise it
builds the status breakdown and computes
`max(r.end_time or 0) - min(r.start_time or inf)`, substituting `0` when
that difference equals `float('inf')`. -/
def get_statistics {U : Type} (st : MultiThreadProcessorWithResult U) :
    Option Stats :=
  if st.task_results.isEmpty then none
  else
    let tt := PyFloat.sub
      (pyMaxList (st.task_results.map (fun r => orZero r.end_time)))
      (pyMinList (st.task_results.map (fun r => orInf r.start_time)))
    some { total := st.total_tasks,
           completed := st.completed_tasks,
           counts := fun s => st.task_results.countP (fun r => decide (r.status = s)),
           total_time := if tt = PyFloat.inf then PyFloat.fin 0 else tt }

end MultiThreadProcessorWithResult

/-! ### Object identity for `get_task_status`

`get_task_status` returns `self.task_results.copy()` — `dict.copy()` is a
shallow copy: a new dict with the same key → object-reference entries; the
`TaskResult` objects themselves are not copied.  To state sharing we model
object identity explicitly: a heap of `TaskResult` objects indexed by
address, and a dict as an association list from task id to address. -/

/-- A store of `TaskResult` objects; a list index is an object address. -/
abbrev Heap (U : Type) := List (TaskResult U)

/-- A Python dict mapping task id to the address of its `TaskResult`
object (the engine's `self.task_results`, seen with object identity). -/
structure TaskDict where
  entries : List (Nat × Nat)

/-- `get_task_status()` = `self.task_results.copy()`: a new dict object with
the same id → record-address entries; the records are shared, not copied. -/
def get_task_status (d : TaskDict) : TaskDict :=
  { entries := d.entries }

/-- In-place mutation of the `TaskResult` object at `addr` (what a caller
does when it assigns to a field of a record it reached through a
snapshot). -/
def heapWrite {U : Type} (h : Heap U) (addr : Nat) (r : TaskResult U) : Heap U :=
  List.set h addr r

/-- Reading the record for task `id` through a dict: follow the stored
address into the heap. -/
def dictGet {U : Type} (h : Heap U) (d : TaskDict) (id : Nat) :
    Option (TaskResult U) :=
  (d.entries.lookup id).bind (fun addr => List.get? h addr)

/-! ### Lemmas about the retry loop -/

section RetryLemmas

variable {U : Type}

/-- Unfolding `retryLoop` when the current attempt succeeds. -/
theorem retryLoop_ok (retry : Nat) (work : Nat → Except PyExc (Option U))
    (attempt : Nat) (rest : List Nat) (r : TaskResult U) (v : Option U)
    (h : work attempt = Except.ok v) :
    retryLoop retry work (attempt :: rest) r =
      (let r1 := if 0 < attempt then
          { r with status := TaskStatus.RETRYING, retry_count := attempt }
        else r
       { record := r1, trace := [r1], sleeps := [], outcome := Except.ok v }) := by
  simp only [retryLoop, h]

/-- Unfolding `retryLoop` when the current attempt fails with a retry left. -/
theorem retryLoop_err_retry (retry : Nat) (work : Nat → Except PyExc (Option U))
    (attempt : Nat) (rest : List Nat) (r : TaskResult U) (e : PyExc)
    (h : work attempt = Except.error e) (hlt : attempt < retry) :
    retryLoop retry work (attempt :: rest) r =
      (let r1 := if 0 < attempt then
          { r with status := TaskStatus.RETRYING, retry_count := attempt }
        else r
       let out := retryLoop retry work rest r1
       { record := out.record, trace := r1 :: out.trace,
         sleeps := (((attempt : ℚ) + 1) / 10) :: out.sleeps,
         outcome := out.outcome }) := by
  simp only [retryLoop, h, if_pos hlt]

/-- Unfolding `retryLoop` when the current attempt fails with no retry
left. -/
theorem retryLoop_err_exhausted (retry : Nat) (work : Nat → Except PyExc (Option U))
    (attempt : Nat) (rest : List Nat) (r : TaskResult U) (e : PyExc)
    (h : work attempt = Except.error e) (hge : ¬ attempt < retry) :
    retryLoop retry work (attempt :: rest) r =
      (let r1 := if 0 < attempt then
          { r with status := TaskStatus.RETRYING, retry_count := attempt }
        else r
       { record := r1, trace := [r1], sleeps := [], outcome := Except.error e }) := by
  simp only [retryLoop, h, if_neg hge]

/-- If the work function fails on attempts `j, …, j+d-1` and succeeds on
attempt `j + d ≤ retry`, the loop entered at attempt `j` returns the produced
value, the final record carries `retry_count = j + d` (unless no retry
happened at all), and one backoff sleep of `(a + 1) / 10` seconds was
performed for each failed attempt `a`. -/
theorem retryLoop_succeeds (retry : Nat) (work : Nat → Except PyExc (Option U))
    (errs : Nat → PyExc) (v : Option U) :
    ∀ (d j : Nat) (r : TaskResult U), j + d ≤ retry →
    (∀ a, j ≤ a → a < j + d → work a = Except.error (errs a)) →
    work (j + d) = Except.ok v →
    (retryLoop retry work (List.range' j (retry + 1 - j)) r).outcome =
      Except.ok v ∧
    (retryLoop retry work (List.range' j (retry + 1 - j)) r).record =
      (if 0 < j + d then
        { r with status := TaskStatus.RETRYING, retry_count := j + d }
      else r) ∧
    (retryLoop retry work (List.range' j (retry + 1 - j)) r).sleeps =
      (List.range d).map (fun t : ℕ => ((j : ℚ) + (t : ℚ) + 1) / 10) := by
  intro d
  induction d with
  | zero =>
    intro j r hle hfail hok
    rw [show retry + 1 - j = (retry - j) + 1 by omega, List.range'_succ,
      retryLoop_ok retry work j _ r v (by simpa using hok)]
    simp
  | succ d ih =>
    intro j r hle hfail hok
    have hj : work j = Except.error (errs j) := hfail j le_rfl (by omega)
    have hjr : j < retry := by omega
    rw [show retry + 1 - j = (retry - j) + 1 by omega, List.range'_succ,
      retryLoop_err_retry retry work j _ r _ hj hjr]
    dsimp only
    rw [show retry - j = retry + 1 - (j + 1) by omega]
    have heq : j + 1 + d = j + (d + 1) := by omega
    obtain ⟨ho, hr, hs⟩ := ih (j + 1)
      (if 0 < j then { r with status := TaskStatus.RETRYING, retry_count := j } else r)
      (by omega)
      (fun a ha1 ha2 => hfail a (by omega) (by omega))
      (by rw [heq]; exact hok)
    refine ⟨ho, ?_, ?_⟩
    · rw [hr, heq]
      have hpos : 0 < j + (d + 1) := by omega
      simp only [if_pos hpos, heq]
      by_cases h0 : 0 < j <;> simp [h0]
    · rw [hs, List.range_succ_eq_map, List.map_cons, List.map_map]
      congr 1
      · norm_num
      · refine List.map_congr_left (fun t _ => ?_)
        simp only [Function.comp]
        push_cast
        ring

/-- If the work function fails on every attempt `j, …, retry`, the loop
entered at attempt `j` propagates the error of the last attempt, the final
record carries `retry_count = retry` (unless `retry = 0`), and one backoff
sleep was performed for each failed attempt except the last. -/
theorem retryLoop_fails (retry : Nat) (work : Nat → Except PyExc (Option U))
    (errs : Nat → PyExc) :
    ∀ (d j : Nat) (r : TaskResult U), j + d = retry →
    (∀ a, j ≤ a → a ≤ retry → work a = Except.error (errs a)) →
    (retryLoop retry work (List.range' j (retry + 1 - j)) r).outcome =
      Except.error (errs retry) ∧
    (retryLoop retry work (List.range' j (retry + 1 - j)) r).record =
      (if 0 < retry then
        { r with status := TaskStatus.RETRYING, retry_count := retry }
      else r) ∧
    (retryLoop retry work (List.range' j (retry + 1 - j)) r).sleeps =
      (List.range d).map (fun t : ℕ => ((j : ℚ) + (t : ℚ) + 1) / 10) := by
  intro d
  induction d with
  | zero =>
    intro j r hje hfail
    obtain rfl : j = retry := by omega
    rw [show j + 1 - j = 0 + 1 by omega, List.range'_succ,
      retryLoop_err_exhausted j work j _ r _
        (hfail j le_rfl le_rfl) (by omega)]
    simp
  | succ d ih =>
    intro j r hje hfail
    have hj : work j = Except.error (errs j) := hfail j le_rfl (by omega)
    have hjr : j < retry := by omega
    rw [show retry + 1 - j = (retry - j) + 1 by omega, List.range'_succ,
      retryLoop_err_retry retry work j _ r _ hj hjr]
    dsimp only
    rw [show retry - j = retry + 1 - (j + 1) by omega]
    obtain ⟨ho, hr, hs⟩ := ih (j + 1)
      (if 0 < j then { r with status := TaskStatus.RETRYING, retry_count := j } else r)
      (by omega)
      (fun a ha1 ha2 => hfail a (by omega) ha2)
    refine ⟨ho, ?_, ?_⟩
    · rw [hr]
      have hpos : 0 < retry := by omega
      simp only [if_pos hpos]
      by_cases h0 : 0 < j <;> simp [h0]
    · rw [hs, List.range_succ_eq_map, List.map_cons, List.map_map]
      congr 1
      · norm_num
      · refine List.map_congr_left (fun t _ => ?_)
        simp only [Function.comp]
        push_cast
        ring

/-- `_run_with_retry` on a fresh record, when the work function fails on the
first `k` attempts and succeeds on attempt `k ≤ retry`. -/
theorem run_with_retry_succeeds (retry k : Nat) (work : Nat → Except PyExc (Option U))
    (errs : Nat → PyExc) (v : Option U) (t0 : ℚ) (i : Nat)
    (hk : k ≤ retry) (hfail : ∀ a, a < k → work a = Except.error (errs a))
    (hok : work k = Except.ok v) :
    (run_with_retry retry work t0 (initRecord U i)).outcome = Except.ok v ∧
    (run_with_retry retry work t0 (initRecord U i)).record =
      { task_id := i, result := none,
        status := if 0 < k then TaskStatus.RETRYING else TaskStatus.RUNNING,
        error_message := none, start_time := some t0, end_time := none,
        retry_count := k } ∧
    (run_with_retry retry work t0 (initRecord U i)).sleeps =
      (List.range k).map (fun t : ℕ => ((t : ℚ) + 1) / 10) := by
  obtain ⟨ho, hr, hs⟩ := retryLoop_succeeds retry work errs v k 0
    { initRecord U i with start_time := some t0, status := TaskStatus.RUNNING }
    (by omega) (fun a ha1 ha2 => hfail a (by omega))
    (by rw [Nat.zero_add]; exact hok)
  rw [Nat.sub_zero, ← List.range_eq_range'] at ho hr hs
  unfold run_with_retry
  dsimp only
  refine ⟨ho, ?_, ?_⟩
  · rw [hr]
    by_cases h0 : 0 < k
    · simp only [Nat.zero_add, if_pos h0, initRecord]
    · simp only [Nat.zero_add, if_neg h0, initRecord]
      obtain rfl : k = 0 := by omega
      rfl
  · rw [hs]
    refine List.map_congr_left (fun t _ => ?_)
    push_cast
    ring

/-- `_run_with_retry` on a fresh record, when the work function fails on all
`retry + 1` attempts: the error of the last attempt propagates. -/
theorem run_with_retry_fails (retry : Nat) (work : Nat → Except PyExc (Option U))
    (errs : Nat → PyExc) (t0 : ℚ) (i : Nat)
    (hfail : ∀ a, a ≤ retry → work a = Except.error (errs a)) :
    (run_with_retry retry work t0 (initRecord U i)).outcome =
      Except.error (errs retry) ∧
    (run_with_retry retry work t0 (initRecord U i)).record =
      { task_id := i, result := none,
        status := if 0 < retry then TaskStatus.RETRYING else TaskStatus.RUNNING,
        error_message := none, start_time := some t0, end_time := none,
        retry_count := retry } ∧
    (run_with_retry retry work t0 (initRecord U i)).sleeps =
      (List.range retry).map (fun t : ℕ => ((t : ℚ) + 1) / 10) := by
  obtain ⟨ho, hr, hs⟩ := retryLoop_fails retry work errs retry 0
    { initRecord U i with start_time := some t0, status := TaskStatus.RUNNING }
    (by omega) (fun a ha1 ha2 => hfail a ha2)
  rw [Nat.sub_zero, ← List.range_eq_range'] at ho hr hs
  unfold run_with_retry
  dsimp only
  refine ⟨ho, ?_, ?_⟩
  · rw [hr]
    by_cases h0 : 0 < retry
    · simp only [if_pos h0, initRecord]
    · simp only [if_neg h0, initRecord]
      obtain rfl : retry = 0 := by omega
      rfl
  · rw [hs]
    refine List.map_congr_left (fun t _ => ?_)
    push_cast
    ring

/-- Every record state the retry loop writes keeps `retry_count` at or below
the configured limit, provided the visited attempt indices do (they are
taken from `range (retry + 1)`). -/
theorem retryLoop_retry_count_le (retry : Nat) (work : Nat → Except PyExc (Option U)) :
    ∀ (l : List Nat) (r : TaskResult U), (∀ a ∈ l, a ≤ retry) →
    r.retry_count ≤ retry →
    (retryLoop retry work l r).record.retry_count ≤ retry ∧
    ∀ x ∈ (retryLoop retry work l r).trace, x.retry_count ≤ retry := by
  intro l
  induction l with
  | nil =>
    intro r _ h3
    exact ⟨h3, by simp [retryLoop]⟩
  | cons attempt rest ih =>
    intro r hl h3
    have ha : attempt ≤ retry := hl attempt (List.mem_cons_self attempt rest)
    have r1le : (if 0 < attempt then
        { r with status := TaskStatus.RETRYING, retry_count := attempt }
      else r).retry_count ≤ retry := by
      by_cases h0 : 0 < attempt
      · simpa [h0] using ha
      · simpa [h0] using h3
    cases hw : work attempt with
    | ok v =>
      rw [retryLoop_ok retry work attempt rest r v hw]
      dsimp only
      exact ⟨r1le, by simpa using r1le⟩
    | error e =>
      by_cases hlt : attempt < retry
      · rw [retryLoop_err_retry retry work attempt rest r e hw hlt]
        dsimp only
        obtain ⟨hrec, htr⟩ := ih
          (if 0 < attempt then
            { r with status := TaskStatus.RETRYING, retry_count := attempt }
          else r)
          (fun a hma => hl a (List.mem_cons_of_mem attempt hma)) r1le
        refine ⟨hrec, fun x hx => ?_⟩
        rcases List.mem_cons.mp hx with rfl | hx
        · exact r1le
        · exact htr x hx
      · rw [retryLoop_err_exhausted retry work attempt rest r e hw hlt]
        dsimp only
        exact ⟨r1le, by simpa using r1le⟩

/-- `_run_with_retry` on a fresh record never drives `retry_count` above the
configured limit — at any of its intermediate writes or in its final state,
for any behaviour of the work function. -/
theorem run_with_retry_retry_count_le (retry : Nat)
    (work : Nat → Except PyExc (Option U)) (t0 : ℚ) (i : Nat) :
    (run_with_retry retry work t0 (initRecord U i)).record.retry_count ≤ retry ∧
    ∀ x ∈ (run_with_retry retry work t0 (initRecord U i)).trace,
      x.retry_count ≤ retry := by
  obtain ⟨hrec, htr⟩ := retryLoop_retry_count_le retry work
    (List.range (retry + 1))
    { initRecord U i with start_time := some t0, status := TaskStatus.RUNNING }
    (fun a hma => by
      have := List.mem_range.mp hma
      omega)
    (by simp [initRecord])
  unfold run_with_retry
  dsimp only
  refine ⟨hrec, fun x hx => ?_⟩
  rcases List.mem_cons.mp hx with rfl | hx
  · simp [initRecord]
  · exact htr x hx

end RetryLemmas

/-! ### Lemmas about `run`'s collection loop -/

section RunLemmas

variable {U : Type}

open MultiThreadProcessorWithResult

/-- `processTask` when the task's work function fails on the first `k`
attempts and succeeds on attempt `k ≤ retry`. -/
theorem processTask_succeeds (retry : Nat) (timeout : ℚ)
    (work : Nat → Nat → Except PyExc (Option U)) (startT endT : Nat → ℚ)
    (i k : Nat) (errs : Nat → PyExc) (v : Option U)
    (hk : k ≤ retry) (hfail : ∀ a, a < k → work i a = Except.error (errs a))
    (hok : work i k = Except.ok v) :
    processTask retry timeout work startT endT i =
      ({ task_id := i, result := v, status := TaskStatus.COMPLETED,
         error_message := none, start_time := some (startT i),
         end_time := some (endT i), retry_count := k }, v) := by
  obtain ⟨ho, hr, _⟩ :=
    run_with_retry_succeeds retry k (work i) errs v (startT i) i hk hfail hok
  unfold processTask
  dsimp only
  rw [ho, hr]
  simp [futureResult]

/-- `processTask` when the task's work function fails on all `retry + 1`
attempts and the last propagated exception is not a builtin `TimeoutError`:
it falls through to `except Exception` and the task is FAILED with
`str(e)`. -/
theorem processTask_fails (retry : Nat) (timeout : ℚ)
    (work : Nat → Nat → Except PyExc (Option U)) (startT endT : Nat → ℚ)
    (i : Nat) (errs : Nat → PyExc)
    (hfail : ∀ a, a ≤ retry → work i a = Except.error (errs a))
    (hnt : (errs retry).isTimeout = false) :
    processTask retry timeout work startT endT i =
      ({ task_id := i, result := none, status := TaskStatus.FAILED,
         error_message := some (errs retry).msg, start_time := some (startT i),
         end_time := some (endT i), retry_count := retry }, none) := by
  obtain ⟨ho, hr, _⟩ :=
    run_with_retry_fails retry (work i) errs (startT i) i hfail
  unfold processTask
  dsimp only
  rw [ho, hr]
  simp [futureResult, hnt]

/-- `processTask` when the task's work function fails on all `retry + 1`
attempts and the last propagated exception IS a builtin `TimeoutError`:
`run`'s first clause `except TimeoutError` catches it, so the task is
TIMEOUT with the fixed message and the exception's own message is
discarded. -/
theorem processTask_fails_timeout (retry : Nat) (timeout : ℚ)
    (work : Nat → Nat → Except PyExc (Option U)) (startT endT : Nat → ℚ)
    (i : Nat) (errs : Nat → PyExc)
    (hfail : ∀ a, a ≤ retry → work i a = Except.error (errs a))
    (ht : (errs retry).isTimeout = true) :
    processTask retry timeout work startT endT i =
      ({ task_id := i, result := none, status := TaskStatus.TIMEOUT,
         error_message := some "任务执行超时", start_time := some (startT i),
         end_time := some (endT i), retry_count := retry }, none) := by
  obtain ⟨ho, hr, _⟩ :=
    run_with_retry_fails retry (work i) errs (startT i) i hfail
  unfold processTask
  dsimp only
  rw [ho, hr]
  simp [futureResult, ht]

/-- The record-table part of `run`'s loop: each completed task overwrites its
own slot. -/
def setAll (f : Nat → TaskResult U) : List Nat → List (TaskResult U) → List (TaskResult U)
  | [], recs => recs
  | i :: l, recs => setAll f l (recs.set i (f i))

theorem setAll_length (f : Nat → TaskResult U) :
    ∀ (l : List Nat) (recs : List (TaskResult U)),
    (setAll f l recs).length = recs.length := by
  intro l
  induction l with
  | nil => intro recs; rfl
  | cons a l ih => intro recs; rw [setAll, ih, List.length_set]

theorem setAll_get_not_mem (f : Nat → TaskResult U) :
    ∀ (l : List Nat) (recs : List (TaskResult U)) (i : Nat), i ∉ l →
    (setAll f l recs)[i]? = recs[i]? := by
  intro l
  induction l with
  | nil => intro recs i _; rfl
  | cons a l ih =>
    intro recs i hi
    rw [setAll, ih _ _ (fun h => hi (List.mem_cons_of_mem a h)),
      List.getElem?_set_ne
        (show a ≠ i from fun h => hi (by rw [← h]; exact List.mem_cons_self a l))]

theorem setAll_get_mem (f : Nat → TaskResult U) :
    ∀ (l : List Nat) (recs : List (TaskResult U)) (i : Nat), i ∈ l →
    i < recs.length → (setAll f l recs)[i]? = some (f i) := by
  intro l
  induction l with
  | nil => intro recs i hi; exact absurd hi (List.not_mem_nil i)
  | cons a l ih =>
    intro recs i hi hlt
    by_cases hmem : i ∈ l
    · rw [setAll]
      exact ih _ i hmem (by rwa [List.length_set])
    · obtain rfl : i = a := by
        rcases List.mem_cons.mp hi with rfl | h
        · rfl
        · exact absurd h hmem
      rw [setAll, setAll_get_not_mem f l _ i hmem,
        List.getElem?_set_self hlt]

theorem setAll_mem (f : Nat → TaskResult U) :
    ∀ (l : List Nat) (recs : List (TaskResult U)) (x : TaskResult U),
    x ∈ setAll f l recs → x ∈ recs ∨ ∃ i, x = f i := by
  intro l
  induction l with
  | nil => intro recs x hx; exact Or.inl hx
  | cons a l ih =>
    intro recs x hx
    rcases ih _ x hx with hmem | hf
    · rcases List.mem_or_eq_of_mem_set hmem with h | rfl
      · exact Or.inl h
      · exact Or.inr ⟨a, rfl⟩
    · exact Or.inr hf

/-- `run`'s collection loop in closed form: the record table receives each
task's processed record, `completed_tasks` is incremented once per task, and
`results` receives the tasks' output elements in completion order. -/
theorem foldl_runStep (retry : Nat) (timeout : ℚ)
    (work : Nat → Nat → Except PyExc (Option U)) (startT endT : Nat → ℚ) :
    ∀ (order : List Nat) (recs : List (TaskResult U)) (c : Nat)
      (res : List (Option U)),
    order.foldl (runStep retry timeout work startT endT) (recs, c, res) =
      (setAll (fun i => (processTask retry timeout work startT endT i).1) order recs,
       c + order.length,
       res ++ order.map (fun i => (processTask retry timeout work startT endT i).2)) := by
  intro order
  induction order with
  | nil => intro recs c res; simp [setAll]
  | cons a l ih =>
    intro recs c res
    rw [List.foldl_cons]
    show (l.foldl (runStep retry timeout work startT endT)
      (runStep retry timeout work startT endT (recs, c, res) a)) = _
    rw [runStep, ih]
    refine congrArg₂ Prod.mk rfl (congrArg₂ Prod.mk ?_ ?_)
    · simp only [List.length_cons]
      omega
    · simp

/-- `run` in closed form, for a well-formed configuration. -/
theorem run_eq (st : MultiThreadProcessorWithResult U) (N : Nat)
    (work : Nat → Nat → Except PyExc (Option U)) (startT endT : Nat → ℚ)
    (order : List Nat) (hmw : 0 < st.max_workers) :
    run st N work startT endT order =
      ({ st with
          total_tasks := N,
          completed_tasks := order.length,
          task_results :=
            setAll (fun i => (processTask st.retry st.timeout work startT endT i).1)
              order ((List.range N).map (initRecord U)) },
       Except.ok (order.map (fun i => (processTask st.retry st.timeout work startT endT i).2))) := by
  unfold run
  rw [if_neg (by omega : ¬ st.max_workers ≤ 0)]
  dsimp only
  rw [foldl_runStep]
  simp

/-- The retry loop only ever rewrites `status` and `retry_count`: its final
record is the input record, possibly with those two fields replaced. -/
theorem retryLoop_record_shape (retry : Nat) (work : Nat → Except PyExc (Option U)) :
    ∀ (l : List Nat) (r : TaskResult U),
    (retryLoop retry work l r).record = r ∨
    ∃ c, (retryLoop retry work l r).record =
      { r with status := TaskStatus.RETRYING, retry_count := c } := by
  intro l
  induction l with
  | nil =>
    intro r
    exact Or.inl rfl
  | cons attempt rest ih =>
    intro r
    cases hw : work attempt with
    | ok v =>
      rw [retryLoop_ok retry work attempt rest r v hw]
      dsimp only
      split
      · exact Or.inr ⟨attempt, rfl⟩
      · exact Or.inl rfl
    | error e =>
      by_cases hlt : attempt < retry
      · rw [retryLoop_err_retry retry work attempt rest r e hw hlt]
        dsimp only
        rcases ih
          (if 0 < attempt then
            { r with status := TaskStatus.RETRYING, retry_count := attempt }
          else r) with h | ⟨c, h⟩
        · rw [h]
          split
          · exact Or.inr ⟨attempt, rfl⟩
          · exact Or.inl rfl
        · rw [h]
          by_cases h0 : 0 < attempt
          · rw [if_pos h0]
            exact Or.inr ⟨c, rfl⟩
          · rw [if_neg h0]
            exact Or.inr ⟨c, rfl⟩
      · rw [retryLoop_err_exhausted retry work attempt rest r e hw hlt]
        dsimp only
        split
        · exact Or.inr ⟨attempt, rfl⟩
        · exact Or.inl rfl

/-- The record `_run_with_retry` leaves behind differs from its input only
in `start_time`, `status` and possibly `retry_count`. -/
theorem run_with_retry_record_shape (retry : Nat)
    (work : Nat → Except PyExc (Option U)) (t0 : ℚ) (r : TaskResult U) :
    (run_with_retry retry work t0 r).record =
      { r with start_time := some t0, status := TaskStatus.RUNNING } ∨
    ∃ c, (run_with_retry retry work t0 r).record =
      { r with
          start_time := some t0,
          status := TaskStatus.RETRYING,
          retry_count := c } := by
  unfold run_with_retry
  dsimp only
  rcases retryLoop_record_shape retry work (List.range (retry + 1))
    { r with start_time := some t0, status := TaskStatus.RUNNING }
    with h | ⟨c, h⟩
  · rw [h]
    exact Or.inl rfl
  · rw [h]
    exact Or.inr ⟨c, rfl⟩

/-- For any work-function behaviour, the record produced by `processTask`
for task `i` carries id `i`, the task's start reading, the `finally`
block's end reading — and an error message only in the non-COMPLETED
branches. -/
theorem processTask_fixed_fields (retry : Nat) (timeout : ℚ)
    (work : Nat → Nat → Except PyExc (Option U)) (startT endT : Nat → ℚ)
    (i : Nat) :
    (processTask retry timeout work startT endT i).1.task_id = i ∧
    (processTask retry timeout work startT endT i).1.start_time = some (startT i) ∧
    (processTask retry timeout work startT endT i).1.end_time = some (endT i) := by
  have hsh := run_with_retry_record_shape retry (work i) (startT i) (initRecord U i)
  unfold processTask
  dsimp only
  cases hW : futureResult timeout true
      (run_with_retry retry (work i) (startT i) (initRecord U i)).outcome with
  | ok v =>
    dsimp only
    rcases hsh with h | ⟨c, h⟩ <;> rw [h] <;> simp [initRecord]
  | exc e =>
    dsimp only
    split <;> rcases hsh with h | ⟨c, h⟩ <;> rw [h] <;> simp [initRecord]
  | timedOut =>
    dsimp only
    rcases hsh with h | ⟨c, h⟩ <;> rw [h] <;> simp [initRecord]

/-- For any work-function behaviour, `processTask` either completes the task
(output element = stored result) or fails/times it out (output element =
the `None` placeholder). -/
theorem processTask_dichotomy (retry : Nat) (timeout : ℚ)
    (work : Nat → Nat → Except PyExc (Option U)) (startT endT : Nat → ℚ)
    (i : Nat) :
    ((processTask retry timeout work startT endT i).1.status = TaskStatus.COMPLETED ∧
     (processTask retry timeout work startT endT i).2 =
       (processTask retry timeout work startT endT i).1.result) ∨
    (((processTask retry timeout work startT endT i).1.status = TaskStatus.FAILED ∨
      (processTask retry timeout work startT endT i).1.status = TaskStatus.TIMEOUT) ∧
     (processTask retry timeout work startT endT i).2 = none) := by
  unfold processTask
  dsimp only
  cases hW : futureResult timeout true
      (run_with_retry retry (work i) (startT i) (initRecord U i)).outcome with
  | ok v => exact Or.inl ⟨rfl, rfl⟩
  | exc e =>
    dsimp only
    split
    · exact Or.inr ⟨Or.inr rfl, rfl⟩
    · exact Or.inr ⟨Or.inl rfl, rfl⟩
  | timedOut => exact Or.inr ⟨Or.inr rfl, rfl⟩

section RunAccessors

variable (st : MultiThreadProcessorWithResult U) (N : Nat)
  (work : Nat → Nat → Except PyExc (Option U)) (startT endT : Nat → ℚ)
  (order : List Nat)

/-- After a `run`, the record table has one entry per input task. -/
theorem run_task_results_length (hmw : 0 < st.max_workers) :
    (run st N work startT endT order).1.task_results.length = N := by
  rw [run_eq st N work startT endT order hmw]
  dsimp only
  rw [setAll_length]
  simp

/-- After a `run`, the record of a task that was collected holds that task's
processed record. -/
theorem run_task_results_getD (i : Nat) (d : TaskResult U)
    (hmw : 0 < st.max_workers) (hmem : i ∈ order) (hi : i < N) :
    (run st N work startT endT order).1.task_results.getD i d =
      (processTask st.retry st.timeout work startT endT i).1 := by
  rw [run_eq st N work startT endT order hmw]
  dsimp only
  rw [List.getD_eq_getElem?_getD, setAll_get_mem _ _ _ _ hmem (by simpa using hi)]
  rfl

/-- With a completion order covering all of `0..N-1`, every record in the
final table is the processed record of some task. -/
theorem run_task_results_mem (hmw : 0 < st.max_workers)
    (hperm : order.Perm (List.range N)) :
    ∀ rec ∈ (run st N work startT endT order).1.task_results,
    ∃ i, i < N ∧ rec = (processTask st.retry st.timeout work startT endT i).1 := by
  intro rec hrec
  obtain ⟨j, hj, hget⟩ := List.mem_iff_getElem.mp hrec
  have hlen : (run st N work startT endT order).1.task_results.length = N :=
    run_task_results_length st N work startT endT order hmw
  have hjN : j < N := by omega
  have hmem : j ∈ order := (hperm.mem_iff).mpr (List.mem_range.mpr hjN)
  refine ⟨j, hjN, ?_⟩
  have := run_task_results_getD st N work startT endT order j (initRecord U 0)
    hmw hmem hjN
  rw [List.getD_eq_getElem?_getD, List.getElem?_eq_getElem hj, hget] at this
  simpa using this

/-- After a `run`, the returned results list is the tasks' output elements
in completion order. -/
theorem run_results_eq (hmw : 0 < st.max_workers) :
    (run st N work startT endT order).2 =
      Except.ok (order.map
        (fun i => (processTask st.retry st.timeout work startT endT i).2)) := by
  rw [run_eq st N work startT endT order hmw]

/-- After a `run`, `completed_tasks` was incremented once per collected
task. -/
theorem run_completed_tasks (hmw : 0 < st.max_workers) :
    (run st N work startT endT order).1.completed_tasks = order.length := by
  rw [run_eq st N work startT endT order hmw]

/-- `run` records the batch size in `total_tasks`. -/
theorem run_total_tasks (hmw : 0 < st.max_workers) :
    (run st N work startT endT order).1.total_tasks = N := by
  rw [run_eq st N work startT endT order hmw]

/-- `run` leaves the configuration fields untouched. -/
theorem run_config_unchanged (hmw : 0 < st.max_workers) :
    (run st N work startT endT order).1.retry = st.retry ∧
    (run st N work startT endT order).1.timeout = st.timeout ∧
    (run st N work startT endT order).1.max_workers = st.max_workers := by
  rw [run_eq st N work startT endT order hmw]
  exact ⟨rfl, rfl, rfl⟩

end RunAccessors

end RunLemmas

/-! ### Lemmas about `get_statistics` -/

section StatsLemmas

variable {U : Type}

open MultiThreadProcessorWithResult

theorem pyMax_fin (a b : ℚ) :
    PyFloat.max (PyFloat.fin a) (PyFloat.fin b) = PyFloat.fin (a ⊔ b) := by
  by_cases h : a ≤ b <;> simp [PyFloat.max, PyFloat.le, h, max_def]

theorem pyMin_fin (a b : ℚ) :
    PyFloat.min (PyFloat.fin a) (PyFloat.fin b) = PyFloat.fin (a ⊓ b) := by
  simp only [PyFloat.min, PyFloat.le]
  by_cases h : b ≤ a
  · rw [if_pos (by simpa using h)]
    exact congrArg PyFloat.fin (min_eq_right h).symm
  · rw [if_neg (by simpa using h)]
    exact congrArg PyFloat.fin (min_eq_left (le_of_not_le h)).symm

/-- The maximum of a list of rationals, as Python's `max` computes it on a
non-empty iterable (`0` for `[]`, which `get_statistics` never evaluates). -/
def qMaxList : List ℚ → ℚ
  | [] => 0
  | x :: xs => xs.foldl max x

/-- The minimum of a list of rationals, as Python's `min` computes it on a
non-empty iterable. -/
def qMinList : List ℚ → ℚ
  | [] => 0
  | x :: xs => xs.foldl min x

theorem foldl_pyMax_fin : ∀ (l : List ℚ) (a : ℚ),
    (l.map PyFloat.fin).foldl PyFloat.max (PyFloat.fin a) =
      PyFloat.fin (l.foldl max a) := by
  intro l
  induction l with
  | nil => intro a; rfl
  | cons x xs ih =>
    intro a
    rw [List.map_cons, List.foldl_cons, List.foldl_cons, pyMax_fin, ih]

theorem foldl_pyMin_fin : ∀ (l : List ℚ) (a : ℚ),
    (l.map PyFloat.fin).foldl PyFloat.min (PyFloat.fin a) =
      PyFloat.fin (l.foldl min a) := by
  intro l
  induction l with
  | nil => intro a; rfl
  | cons x xs ih =>
    intro a
    rw [List.map_cons, List.foldl_cons, List.foldl_cons, pyMin_fin, ih]

theorem pyMaxList_map_fin (l : List ℚ) (hne : l ≠ []) :
    pyMaxList (l.map PyFloat.fin) = PyFloat.fin (qMaxList l) := by
  cases l with
  | nil => exact absurd rfl hne
  | cons x xs => rw [List.map_cons, pyMaxList, qMaxList, foldl_pyMax_fin]

theorem pyMinList_map_fin (l : List ℚ) (hne : l ≠ []) :
    pyMinList (l.map PyFloat.fin) = PyFloat.fin (qMinList l) := by
  cases l with
  | nil => exact absurd rfl hne
  | cons x xs => rw [List.map_cons, pyMinList, qMinList, foldl_pyMin_fin]

theorem orZero_eq (o : Option ℚ) : orZero o = PyFloat.fin (o.getD 0) := by
  cases o <;> rfl

theorem orInf_eq_of_isSome (o : Option ℚ) (h : o.isSome) :
    orInf o = PyFloat.fin (o.getD 0) := by
  cases o with
  | none => exact absurd h (by simp)
  | some q => rfl

/-- `processTask` keeps the `retry_count` delivered by `_run_with_retry`,
so it never exceeds the configured limit. -/
theorem processTask_retry_count_le (retry : Nat) (timeout : ℚ)
    (work : Nat → Nat → Except PyExc (Option U)) (startT endT : Nat → ℚ)
    (i : Nat) :
    (processTask retry timeout work startT endT i).1.retry_count ≤ retry := by
  have hle :=
    (run_with_retry_retry_count_le retry (work i) (startT i) i).1
  unfold processTask
  dsimp only
  cases hW : futureResult timeout true
      (run_with_retry retry (work i) (startT i) (initRecord U i)).outcome with
  | ok v => exact hle
  | exc e =>
    dsimp only
    split
    · exact hle
    · exact hle
  | timedOut => exact hle

/-- `processTask` when the worker's future settled with a value. -/
theorem processTask_of_outcome_ok (retry : Nat) (timeout : ℚ)
    (work : Nat → Nat → Except PyExc (Option U)) (startT endT : Nat → ℚ)
    (i : Nat) (v : Option U)
    (h : (run_with_retry retry (work i) (startT i) (initRecord U i)).outcome =
      Except.ok v) :
    (processTask retry timeout work startT endT i).1.status = TaskStatus.COMPLETED ∧
    (processTask retry timeout work startT endT i).1.result = v ∧
    (processTask retry timeout work startT endT i).2 = v := by
  unfold processTask
  dsimp only
  rw [h]
  exact ⟨rfl, rfl, rfl⟩

/-- `processTask` when the worker's future settled with a propagated
exception that is not a builtin `TimeoutError` (it reaches the second
clause, `except Exception`). -/
theorem processTask_of_outcome_error (retry : Nat) (timeout : ℚ)
    (work : Nat → Nat → Except PyExc (Option U)) (startT endT : Nat → ℚ)
    (i : Nat) (e : PyExc)
    (h : (run_with_retry retry (work i) (startT i) (initRecord U i)).outcome =
      Except.error e)
    (hnt : e.isTimeout = false) :
    (processTask retry timeout work startT endT i).1.status = TaskStatus.FAILED ∧
    (processTask retry timeout work startT endT i).1.error_message = some e.msg ∧
    (processTask retry timeout work startT endT i).2 = none := by
  unfold processTask
  dsimp only
  rw [h]
  simp [futureResult, hnt]

/-- The status-breakdown counts of any record list sum to its length. -/
theorem sum_status_counts (recs : List (TaskResult U)) :
    (allStatuses.map
      (fun s => recs.countP (fun r => decide (r.status = s)))).sum =
      recs.length := by
  induction recs with
  | nil => simp [allStatuses]
  | cons r l ih =>
    simp only [allStatuses, List.map_cons, List.map_nil, List.sum_cons,
      List.sum_nil, List.countP_cons, List.length_cons] at ih ⊢
    cases h : r.status <;> simp [h] <;> omega

end StatsLemmas

/-! ## Claim theorems -/

section Claims

variable {U : Type}

open MultiThreadProcessorWithResult

/-- **C2.** For every task whose work function fails on exactly the first
`k` attempts (`k ≤` the configured retry limit) and succeeds on the next
attempt, the task's final status after `run()` is COMPLETED, its record's
`retry_count` equals `k`, and its `result` field holds the produced
value. -/
theorem C2_completed_after_k_failures (st : MultiThreadProcessorWithResult U)
    (N : Nat) (work : Nat → Nat → Except PyExc (Option U))
    (startT endT : Nat → ℚ) (order : List Nat) (i k : Nat)
    (errs : Nat → PyExc) (v : Option U)
    (hmw : 0 < st.max_workers) (hperm : order.Perm (List.range N)) (hi : i < N)
    (hk : k ≤ st.retry)
    (hfail : ∀ a, a < k → work i a = Except.error (errs a))
    (hok : work i k = Except.ok v) :
    ((run st N work startT endT order).1.task_results.getD i
      (initRecord U 0)).status = TaskStatus.COMPLETED ∧
    ((run st N work startT endT order).1.task_results.getD i
      (initRecord U 0)).retry_count = k ∧
    ((run st N work startT endT order).1.task_results.getD i
      (initRecord U 0)).result = v := by
  have hmem : i ∈ order := hperm.mem_iff.mpr (List.mem_range.mpr hi)
  rw [run_task_results_getD st N work startT endT order i _ hmw hmem hi,
    processTask_succeeds st.retry st.timeout work startT endT i k errs v
      hk hfail hok]
  exact ⟨rfl, rfl, rfl⟩

/-- Witness for C2: retry limit 2, a single task failing once with "boom"
and then producing 7 reaches COMPLETED with `retry_count = 1` and
`result = 7`. -/
theorem C2_completed_after_k_failures_witness :
    ((run (U := Nat) { max_workers := 2, retry := 2, timeout := 10 } 1
        (fun _ a => if a = 0 then
          Except.error { isTimeout := false, msg := "boom" }
        else Except.ok (some 7))
        (fun _ => 0) (fun _ => 1) [0]).1.task_results.getD 0
      (initRecord Nat 0)).status = TaskStatus.COMPLETED ∧
    ((run (U := Nat) { max_workers := 2, retry := 2, timeout := 10 } 1
        (fun _ a => if a = 0 then
          Except.error { isTimeout := false, msg := "boom" }
        else Except.ok (some 7))
        (fun _ => 0) (fun _ => 1) [0]).1.task_results.getD 0
      (initRecord Nat 0)).retry_count = 1 ∧
    ((run (U := Nat) { max_workers := 2, retry := 2, timeout := 10 } 1
        (fun _ a => if a = 0 then
          Except.error { isTimeout := false, msg := "boom" }
        else Except.ok (some 7))
        (fun _ => 0) (fun _ => 1) [0]).1.task_results.getD 0
      (initRecord Nat 0)).result = some 7 :=
  C2_completed_after_k_failures
    { max_workers := 2, retry := 2, timeout := 10 } 1
    (fun _ a => if a = 0 then
      Except.error { isTimeout := false, msg := "boom" }
    else Except.ok (some 7))
    (fun _ => 0) (fun _ => 1) [0] 0 1
    (fun _ => { isTimeout := false, msg := "boom" }) (some 7)
    (by norm_num) (by decide) (by norm_num) (by norm_num)
    (fun a ha => by
      obtain rfl : a = 0 := by omega
      rfl)
    rfl

/-- **C3 counterexample.** The claim fails when the work function's
exceptions are builtin `TimeoutError`s: with `retry = 1` and a task whose
every attempt raises `TimeoutError("slow")`, the exhausted retry loop
re-raises the last error, `future.result` re-raises it again, and `run`'s
FIRST clause `except TimeoutError` (checked before `except Exception`)
catches it — so the record ends TIMEOUT with the fixed message
"任务执行超时", not FAILED with the last attempt's message "slow". -/
theorem C3_counterexample :
    ((run (U := Nat) { max_workers := 1, retry := 1, timeout := 10 } 1
        (fun _ _ => Except.error { isTimeout := true, msg := "slow" })
        (fun _ => 0) (fun _ => 1) [0]).1.task_results.getD 0
      (initRecord Nat 0)).status = TaskStatus.TIMEOUT ∧
    ((run (U := Nat) { max_workers := 1, retry := 1, timeout := 10 } 1
        (fun _ _ => Except.error { isTimeout := true, msg := "slow" })
        (fun _ => 0) (fun _ => 1) [0]).1.task_results.getD 0
      (initRecord Nat 0)).status ≠ TaskStatus.FAILED ∧
    ((run (U := Nat) { max_workers := 1, retry := 1, timeout := 10 } 1
        (fun _ _ => Except.error { isTimeout := true, msg := "slow" })
        (fun _ => 0) (fun _ => 1) [0]).1.task_results.getD 0
      (initRecord Nat 0)).error_message = some "任务执行超时" ∧
    ((run (U := Nat) { max_workers := 1, retry := 1, timeout := 10 } 1
        (fun _ _ => Except.error { isTimeout := true, msg := "slow" })
        (fun _ => 0) (fun _ => 1) [0]).1.task_results.getD 0
      (initRecord Nat 0)).error_message ≠ some "slow" ∧
    ((run (U := Nat) { max_workers := 1, retry := 1, timeout := 10 } 1
        (fun _ _ => Except.error { isTimeout := true, msg := "slow" })
        (fun _ => 0) (fun _ => 1) [0]).1.task_results.getD 0
      (initRecord Nat 0)).retry_count = 1 := by
  decide

/-- **C3 (amended).** For every task whose work function fails on all
`retry + 1` attempts, the record's `retry_count` after `run()` equals the
configured retry limit, and the terminal classification follows `run`'s
except-clause order: if the last attempt's exception is not a builtin
`TimeoutError`, the status is FAILED with that last error's message; if it
is a builtin `TimeoutError`, the first clause `except TimeoutError`
catches it, so the status is TIMEOUT with the fixed message "任务执行超时"
and the error's own message is discarded. -/
theorem C3_failed_after_exhaustion (st : MultiThreadProcessorWithResult U)
    (N : Nat) (work : Nat → Nat → Except PyExc (Option U))
    (startT endT : Nat → ℚ) (order : List Nat) (i : Nat)
    (errs : Nat → PyExc)
    (hmw : 0 < st.max_workers) (hperm : order.Perm (List.range N)) (hi : i < N)
    (hfail : ∀ a, a ≤ st.retry → work i a = Except.error (errs a)) :
    ((run st N work startT endT order).1.task_results.getD i
      (initRecord U 0)).retry_count = st.retry ∧
    ((errs st.retry).isTimeout = false →
      ((run st N work startT endT order).1.task_results.getD i
        (initRecord U 0)).status = TaskStatus.FAILED ∧
      ((run st N work startT endT order).1.task_results.getD i
        (initRecord U 0)).error_message = some (errs st.retry).msg) ∧
    ((errs st.retry).isTimeout = true →
      ((run st N work startT endT order).1.task_results.getD i
        (initRecord U 0)).status = TaskStatus.TIMEOUT ∧
      ((run st N work startT endT order).1.task_results.getD i
        (initRecord U 0)).error_message = some "任务执行超时") := by
  have hmem : i ∈ order := hperm.mem_iff.mpr (List.mem_range.mpr hi)
  rw [run_task_results_getD st N work startT endT order i _ hmw hmem hi]
  cases hb : (errs st.retry).isTimeout with
  | false =>
    rw [processTask_fails st.retry st.timeout work startT endT i errs hfail hb]
    exact ⟨rfl, fun _ => ⟨rfl, rfl⟩, fun h => Bool.noConfusion h⟩
  | true =>
    rw [processTask_fails_timeout st.retry st.timeout work startT endT i
      errs hfail hb]
    exact ⟨rfl, fun h => Bool.noConfusion h, fun _ => ⟨rfl, rfl⟩⟩

/-- Witness for C3 (amended): retry limit 2, a single task failing on every
attempt with ordinary errors "E0", "E1", "E2" ends FAILED with
`retry_count = 2` and the last message "E2". -/
theorem C3_failed_after_exhaustion_witness :
    ((run (U := Nat) { max_workers := 2, retry := 2, timeout := 10 } 1
        (fun _ a => Except.error
          { isTimeout := false, msg := String.append "E" (toString a) })
        (fun _ => 0) (fun _ => 1) [0]).1.task_results.getD 0
      (initRecord Nat 0)).retry_count = 2 ∧
    ((false : Bool) = false →
      ((run (U := Nat) { max_workers := 2, retry := 2, timeout := 10 } 1
        (fun _ a => Except.error
          { isTimeout := false, msg := String.append "E" (toString a) })
        (fun _ => 0) (fun _ => 1) [0]).1.task_results.getD 0
        (initRecord Nat 0)).status = TaskStatus.FAILED ∧
      ((run (U := Nat) { max_workers := 2, retry := 2, timeout := 10 } 1
        (fun _ a => Except.error
          { isTimeout := false, msg := String.append "E" (toString a) })
        (fun _ => 0) (fun _ => 1) [0]).1.task_results.getD 0
        (initRecord Nat 0)).error_message =
        some (String.append "E" (toString 2))) ∧
    ((false : Bool) = true →
      ((run (U := Nat) { max_workers := 2, retry := 2, timeout := 10 } 1
        (fun _ a => Except.error
          { isTimeout := false, msg := String.append "E" (toString a) })
        (fun _ => 0) (fun _ => 1) [0]).1.task_results.getD 0
        (initRecord Nat 0)).status = TaskStatus.TIMEOUT ∧
      ((run (U := Nat) { max_workers := 2, retry := 2, timeout := 10 } 1
        (fun _ a => Except.error
          { isTimeout := false, msg := String.append "E" (toString a) })
        (fun _ => 0) (fun _ => 1) [0]).1.task_results.getD 0
        (initRecord Nat 0)).error_message = some "任务执行超时") :=
  C3_failed_after_exhaustion
    { max_workers := 2, retry := 2, timeout := 10 } 1
    (fun _ a => Except.error
      { isTimeout := false, msg := String.append "E" (toString a) })
    (fun _ => 0) (fun _ => 1) [0] 0
    (fun a => { isTimeout := false, msg := String.append "E" (toString a) })
    (by norm_num) (by decide) (by norm_num)
    (fun a _ => rfl)

/-- **C4.** For any work-function behaviour, `retry_count` stays at or below
the configured retry limit at every record state the retry executor writes
(its write trace and final record) and in every record of the table after
`run()`. -/
theorem C4_retry_count_invariant (st : MultiThreadProcessorWithResult U)
    (N : Nat) (work : Nat → Nat → Except PyExc (Option U))
    (startT endT : Nat → ℚ) (order : List Nat) :
    (∀ i t0, ∀ x ∈ (run_with_retry st.retry (work i) t0 (initRecord U i)).trace,
      x.retry_count ≤ st.retry) ∧
    (∀ i t0,
      (run_with_retry st.retry (work i) t0 (initRecord U i)).record.retry_count ≤
        st.retry) ∧
    (∀ rec ∈ (run st N work startT endT order).1.task_results,
      rec.retry_count ≤ st.retry) := by
  refine ⟨fun i t0 => (run_with_retry_retry_count_le st.retry (work i) t0 i).2,
    fun i t0 => (run_with_retry_retry_count_le st.retry (work i) t0 i).1,
    fun rec hrec => ?_⟩
  by_cases hmw : st.max_workers ≤ 0
  · unfold run at hrec
    rw [if_pos hmw] at hrec
    dsimp only at hrec
    obtain ⟨i, _, rfl⟩ := List.mem_map.mp hrec
    simp [initRecord]
  · rw [run_eq st N work startT endT order (by omega)] at hrec
    dsimp only at hrec
    rcases setAll_mem _ order _ rec hrec with hmem | ⟨i, rfl⟩
    · obtain ⟨i, _, rfl⟩ := List.mem_map.mp hmem
      simp [initRecord]
    · exact processTask_retry_count_le st.retry st.timeout work startT endT i

/-- Witness for C4: with retry limit 2 and an always-failing work function,
the record left in the table after a concrete `run` has
`retry_count ≤ 2`. -/
theorem C4_retry_count_invariant_witness :
    ((run (U := Nat) { max_workers := 1, retry := 2, timeout := 10 } 1
        (fun _ _ => Except.error { isTimeout := false, msg := "e" }) (fun _ => 0) (fun _ => 1)
        [0]).1.task_results.getD 0 (initRecord Nat 0)).retry_count ≤ 2 :=
  (C4_retry_count_invariant
      { max_workers := 1, retry := 2, timeout := 10 } 1
      (fun _ _ => Except.error { isTimeout := false, msg := "e" }) (fun _ => 0) (fun _ => 1) [0]).2.2
    _ (by decide)

/-- **C9.** After each failed attempt `a` with a retry left, the executor
sleeps exactly `0.1 × (a + 1)` seconds (a 100 ms base unit, linear in the
attempt index); after a failed final attempt there is no further sleep and
the failure propagates. -/
theorem C9_backoff_linear (retry : Nat)
    (work : Nat → Except PyExc (Option U)) (t0 : ℚ) (i : Nat)
    (errs : Nat → PyExc) :
    (∀ k v, k ≤ retry → (∀ a, a < k → work a = Except.error (errs a)) →
      work k = Except.ok v →
      (run_with_retry retry work t0 (initRecord U i)).sleeps =
        (List.range k).map (fun a : ℕ => ((a : ℚ) + 1) / 10)) ∧
    ((∀ a, a ≤ retry → work a = Except.error (errs a)) →
      (run_with_retry retry work t0 (initRecord U i)).sleeps =
        (List.range retry).map (fun a : ℕ => ((a : ℚ) + 1) / 10) ∧
      (run_with_retry retry work t0 (initRecord U i)).outcome =
        Except.error (errs retry)) := by
  constructor
  · intro k v hk hfail hok
    exact (run_with_retry_succeeds retry k work errs v t0 i hk hfail hok).2.2
  · intro hfail
    obtain ⟨ho, _, hs⟩ := run_with_retry_fails retry work errs t0 i hfail
    exact ⟨hs, ho⟩

/-- Witness for C9: with retry limit 2 and every attempt failing, the
executor sleeps 0.1 s then 0.2 s — and not after the final attempt — and
propagates the last error. -/
theorem C9_backoff_linear_witness :
    (run_with_retry (U := Nat) 2
        (fun a => Except.error
          { isTimeout := false, msg := String.append "E" (toString a) }) 0
        (initRecord Nat 0)).sleeps =
      (List.range 2).map (fun a : ℕ => ((a : ℚ) + 1) / 10) ∧
    (run_with_retry (U := Nat) 2
        (fun a => Except.error
          { isTimeout := false, msg := String.append "E" (toString a) }) 0
        (initRecord Nat 0)).outcome =
      Except.error { isTimeout := false, msg := String.append "E" (toString 2) } :=
  (C9_backoff_linear 2
      (fun a => Except.error
        { isTimeout := false, msg := String.append "E" (toString a) }) 0 0
      (fun a => { isTimeout := false, msg := String.append "E" (toString a) })).2
    (fun a _ => rfl)

/-- **C8.** `run()` on a batch of `N` tasks creates exactly `N` task records
with ids `0..N-1` in input order, and returns an output sequence of length
`N` ordered by completion (the `as_completed` delivery order), containing
the stored result value for each COMPLETED task and the `None` placeholder
for each FAILED or TIMEOUT task. -/
theorem C8_run_shape (st : MultiThreadProcessorWithResult U) (N : Nat)
    (work : Nat → Nat → Except PyExc (Option U)) (startT endT : Nat → ℚ)
    (order : List Nat)
    (hmw : 0 < st.max_workers) (hperm : order.Perm (List.range N)) :
    (run st N work startT endT order).1.task_results.length = N ∧
    (∀ i, i < N →
      ((run st N work startT endT order).1.task_results.getD i
        (initRecord U 0)).task_id = i) ∧
    ∃ out, (run st N work startT endT order).2 = Except.ok out ∧
      out.length = N ∧
      out = order.map
        (fun i => (processTask st.retry st.timeout work startT endT i).2) ∧
      ∀ j, j < N →
        (((run st N work startT endT order).1.task_results.getD
            (order.getD j 0) (initRecord U 0)).status = TaskStatus.COMPLETED ∧
          out.getD j none =
            ((run st N work startT endT order).1.task_results.getD
              (order.getD j 0) (initRecord U 0)).result) ∨
        ((((run st N work startT endT order).1.task_results.getD
            (order.getD j 0) (initRecord U 0)).status = TaskStatus.FAILED ∨
          ((run st N work startT endT order).1.task_results.getD
            (order.getD j 0) (initRecord U 0)).status = TaskStatus.TIMEOUT) ∧
          out.getD j none = none) := by
  have hordlen : order.length = N := by simpa using hperm.length_eq
  refine ⟨run_task_results_length st N work startT endT order hmw, ?_, ?_⟩
  · intro i hi
    have hmem : i ∈ order := hperm.mem_iff.mpr (List.mem_range.mpr hi)
    rw [run_task_results_getD st N work startT endT order i _ hmw hmem hi]
    exact (processTask_fixed_fields st.retry st.timeout work startT endT i).1
  · refine ⟨_, run_results_eq st N work startT endT order hmw,
      by simpa using hordlen, rfl, ?_⟩
    intro j hj
    have hjo : j < order.length := by omega
    have hgetD : order.getD j 0 = order[j] := by
      rw [List.getD_eq_getElem?_getD, List.getElem?_eq_getElem hjo]
      rfl
    have hmemo : order[j] ∈ order := List.getElem_mem hjo
    have hiN : order[j] < N := List.mem_range.mp (hperm.mem_iff.mp hmemo)
    have hout : (order.map
        (fun i => (processTask st.retry st.timeout work startT endT i).2)).getD
        j none = (processTask st.retry st.timeout work startT endT order[j]).2 := by
      rw [List.getD_eq_getElem?_getD, List.getElem?_map,
        List.getElem?_eq_getElem hjo]
      rfl
    rw [hgetD, run_task_results_getD st N work startT endT order _ _ hmw
      hmemo hiN, hout]
    exact processTask_dichotomy st.retry st.timeout work startT endT order[j]

/-- Witness for C8: a two-task batch collected in order `[1, 0]` — task 0
succeeds with 10, task 1 always fails. -/
theorem C8_run_shape_witness :
    (run (U := Nat) { max_workers := 3, retry := 1, timeout := 10 } 2
      (fun i _ => if i = 0 then Except.ok (some 10) else Except.error { isTimeout := false, msg := "x" })
      (fun _ => 0) (fun _ => 1) [1, 0]).1.task_results.length = 2 ∧
    (∀ i, i < 2 →
      ((run (U := Nat) { max_workers := 3, retry := 1, timeout := 10 } 2
        (fun i _ => if i = 0 then Except.ok (some 10) else Except.error { isTimeout := false, msg := "x" })
        (fun _ => 0) (fun _ => 1) [1, 0]).1.task_results.getD i
        (initRecord Nat 0)).task_id = i) ∧
    ∃ out, (run (U := Nat) { max_workers := 3, retry := 1, timeout := 10 } 2
      (fun i _ => if i = 0 then Except.ok (some 10) else Except.error { isTimeout := false, msg := "x" })
      (fun _ => 0) (fun _ => 1) [1, 0]).2 = Except.ok out ∧
      out.length = 2 ∧
      out = [1, 0].map (fun i => (processTask 1 10
        (fun i _ => if i = 0 then Except.ok (some 10) else Except.error { isTimeout := false, msg := "x" })
        (fun _ => 0) (fun _ => 1) i).2) ∧
      ∀ j, j < 2 →
        (((run (U := Nat) { max_workers := 3, retry := 1, timeout := 10 } 2
            (fun i _ => if i = 0 then Except.ok (some 10) else Except.error { isTimeout := false, msg := "x" })
            (fun _ => 0) (fun _ => 1) [1, 0]).1.task_results.getD
            ([1, 0].getD j 0) (initRecord Nat 0)).status = TaskStatus.COMPLETED ∧
          out.getD j none =
            ((run (U := Nat) { max_workers := 3, retry := 1, timeout := 10 } 2
              (fun i _ => if i = 0 then Except.ok (some 10) else Except.error { isTimeout := false, msg := "x" })
              (fun _ => 0) (fun _ => 1) [1, 0]).1.task_results.getD
              ([1, 0].getD j 0) (initRecord Nat 0)).result) ∨
        ((((run (U := Nat) { max_workers := 3, retry := 1, timeout := 10 } 2
            (fun i _ => if i = 0 then Except.ok (some 10) else Except.error { isTimeout := false, msg := "x" })
            (fun _ => 0) (fun _ => 1) [1, 0]).1.task_results.getD
            ([1, 0].getD j 0) (initRecord Nat 0)).status = TaskStatus.FAILED ∨
          ((run (U := Nat) { max_workers := 3, retry := 1, timeout := 10 } 2
            (fun i _ => if i = 0 then Except.ok (some 10) else Except.error { isTimeout := false, msg := "x" })
            (fun _ => 0) (fun _ => 1) [1, 0]).1.task_results.getD
            ([1, 0].getD j 0) (initRecord Nat 0)).status = TaskStatus.TIMEOUT) ∧
          out.getD j none = none) :=
  C8_run_shape { max_workers := 3, retry := 1, timeout := 10 } 2
    (fun i _ => if i = 0 then Except.ok (some 10) else Except.error { isTimeout := false, msg := "x" })
    (fun _ => 0) (fun _ => 1) [1, 0] (by norm_num) (by decide)

/-- **C10.** In the output of `run()`, a COMPLETED task whose work function
produced the Python `None` value yields exactly the placeholder element used
for a FAILED task: the two output elements are both `none` (so the output
sequence alone cannot distinguish them); only the records' status fields
differ. -/
theorem C10_none_output_indistinguishable
    (st : MultiThreadProcessorWithResult U) (N : Nat)
    (work : Nat → Nat → Except PyExc (Option U)) (startT endT : Nat → ℚ)
    (order : List Nat) (i j ji jj : Nat) (e : PyExc)
    (hmw : 0 < st.max_workers) (hperm : order.Perm (List.range N))
    (hi : i < N) (hj : j < N)
    (hoki : (run_with_retry st.retry (work i) (startT i)
      (initRecord U i)).outcome = Except.ok none)
    (hfailj : (run_with_retry st.retry (work j) (startT j)
      (initRecord U j)).outcome = Except.error e)
    (hnt : e.isTimeout = false)
    (hji : ji < order.length) (hjj : jj < order.length)
    (hgi : order.getD ji 0 = i) (hgj : order.getD jj 0 = j) :
    ∃ out, (run st N work startT endT order).2 = Except.ok out ∧
      ((run st N work startT endT order).1.task_results.getD i
        (initRecord U 0)).status = TaskStatus.COMPLETED ∧
      ((run st N work startT endT order).1.task_results.getD j
        (initRecord U 0)).status = TaskStatus.FAILED ∧
      out.getD ji none = none ∧ out.getD jj none = none ∧
      out.getD ji none = out.getD jj none := by
  have hmi : i ∈ order := hperm.mem_iff.mpr (List.mem_range.mpr hi)
  have hmj : j ∈ order := hperm.mem_iff.mpr (List.mem_range.mpr hj)
  obtain ⟨hsi, _, hvi⟩ := processTask_of_outcome_ok st.retry st.timeout work
    startT endT i none hoki
  obtain ⟨hsj, _, hvj⟩ := processTask_of_outcome_error st.retry st.timeout work
    startT endT j e hfailj hnt
  have houtji : ((order.map (fun a =>
      (processTask st.retry st.timeout work startT endT a).2)).getD ji none) =
      (processTask st.retry st.timeout work startT endT i).2 := by
    rw [List.getD_eq_getElem?_getD, List.getElem?_map,
      List.getElem?_eq_getElem hji]
    have : order[ji] = i := by
      rw [← hgi, List.getD_eq_getElem?_getD, List.getElem?_eq_getElem hji]
      rfl
    rw [this]
    rfl
  have houtjj : ((order.map (fun a =>
      (processTask st.retry st.timeout work startT endT a).2)).getD jj none) =
      (processTask st.retry st.timeout work startT endT j).2 := by
    rw [List.getD_eq_getElem?_getD, List.getElem?_map,
      List.getElem?_eq_getElem hjj]
    have : order[jj] = j := by
      rw [← hgj, List.getD_eq_getElem?_getD, List.getElem?_eq_getElem hjj]
      rfl
    rw [this]
    rfl
  refine ⟨_, run_results_eq st N work startT endT order hmw, ?_, ?_, ?_, ?_, ?_⟩
  · rw [run_task_results_getD st N work startT endT order i _ hmw hmi hi]
    exact hsi
  · rw [run_task_results_getD st N work startT endT order j _ hmw hmj hj]
    exact hsj
  · rw [houtji, hvi]
  · rw [houtjj, hvj]
  · rw [houtji, hvi, houtjj, hvj]

/-- Witness for C10: task 0 completes with value `None`, task 1 always
fails; both output elements are the placeholder `none`. -/
theorem C10_none_output_indistinguishable_witness :
    ∃ out, (run (U := Nat) { max_workers := 2, retry := 0, timeout := 10 } 2
      (fun i _ => if i = 0 then Except.ok none else Except.error { isTimeout := false, msg := "x" })
      (fun _ => 0) (fun _ => 1) [0, 1]).2 = Except.ok out ∧
      ((run (U := Nat) { max_workers := 2, retry := 0, timeout := 10 } 2
        (fun i _ => if i = 0 then Except.ok none else Except.error { isTimeout := false, msg := "x" })
        (fun _ => 0) (fun _ => 1) [0, 1]).1.task_results.getD 0
        (initRecord Nat 0)).status = TaskStatus.COMPLETED ∧
      ((run (U := Nat) { max_workers := 2, retry := 0, timeout := 10 } 2
        (fun i _ => if i = 0 then Except.ok none else Except.error { isTimeout := false, msg := "x" })
        (fun _ => 0) (fun _ => 1) [0, 1]).1.task_results.getD 1
        (initRecord Nat 0)).status = TaskStatus.FAILED ∧
      out.getD 0 none = none ∧ out.getD 1 none = none ∧
      out.getD 0 none = out.getD 1 none :=
  C10_none_output_indistinguishable
    { max_workers := 2, retry := 0, timeout := 10 } 2
    (fun i _ => if i = 0 then Except.ok none else Except.error { isTimeout := false, msg := "x" })
    (fun _ => 0) (fun _ => 1) [0, 1] 0 1 0 1 { isTimeout := false, msg := "x" }
    (by norm_num) (by decide) (by norm_num) (by norm_num)
    rfl rfl rfl (by norm_num) (by norm_num) rfl rfl

/-- **C7 counterexample.** For `N = 0` the claim fails: after running an
empty batch, `get_statistics` does not report a completed count of `0` (nor
a zero span) — the source returns the distinguished "未执行任务" marker dict
instead (modelled as `none`). -/
theorem C7_counterexample :
    get_statistics (run (U := Nat)
      { max_workers := 3, retry := 2, timeout := 10 } 0
      (fun _ _ => Except.ok none) (fun _ => 0) (fun _ => 0) []).1 = none ∧
    (get_statistics (run (U := Nat)
      { max_workers := 3, retry := 2, timeout := 10 } 0
      (fun _ _ => Except.ok none) (fun _ => 0) (fun _ => 0) []).1).isSome =
      false :=
  ⟨rfl, rfl⟩

/-- **C7 amended.** After `run()` on a batch of size `N ≥ 1`,
`get_statistics()` reports total `N`, completed count `N`, a status
breakdown whose counts sum to `N`, and a wall-clock span equal to
`max(end_time over all records) − min(start_time over all records)`; for
`N = 0` it instead returns the distinguished "no tasks executed" marker. -/
theorem C7_statistics_after_run (st : MultiThreadProcessorWithResult U)
    (N : Nat) (work : Nat → Nat → Except PyExc (Option U))
    (startT endT : Nat → ℚ) (order : List Nat)
    (hmw : 0 < st.max_workers) (hperm : order.Perm (List.range N)) :
    (0 < N → ∃ s, get_statistics (run st N work startT endT order).1 = some s ∧
      s.total = N ∧ s.completed = N ∧
      (allStatuses.map s.counts).sum = N ∧
      s.total_time = PyFloat.fin
        (qMaxList ((run st N work startT endT order).1.task_results.map
          (fun r => r.end_time.getD 0)) -
         qMinList ((run st N work startT endT order).1.task_results.map
          (fun r => r.start_time.getD 0)))) ∧
    (N = 0 → get_statistics (run st N work startT endT order).1 = none) := by
  have hlen := run_task_results_length st N work startT endT order hmw
  constructor
  · intro hN
    have hne : (run st N work startT endT order).1.task_results ≠ [] := by
      intro h
      rw [h] at hlen
      simp at hlen
      omega
    have hmem := run_task_results_mem st N work startT endT order hmw hperm
    have hmax : pyMaxList ((run st N work startT endT order).1.task_results.map
        (fun r => orZero r.end_time)) =
        PyFloat.fin (qMaxList ((run st N work startT endT order).1.task_results.map
          (fun r => r.end_time.getD 0))) := by
      have h1 : (run st N work startT endT order).1.task_results.map
          (fun r => orZero r.end_time) =
          ((run st N work startT endT order).1.task_results.map
            (fun r => r.end_time.getD 0)).map PyFloat.fin := by
        rw [List.map_map]
        refine List.map_congr_left (fun r _ => ?_)
        simp [Function.comp, orZero_eq]
      rw [h1, pyMaxList_map_fin _ (by simpa [List.map_eq_nil] using hne)]
    have hmin : pyMinList ((run st N work startT endT order).1.task_results.map
        (fun r => orInf r.start_time)) =
        PyFloat.fin (qMinList ((run st N work startT endT order).1.task_results.map
          (fun r => r.start_time.getD 0))) := by
      have hsome : ∀ r ∈ (run st N work startT endT order).1.task_results,
          r.start_time.isSome := by
        intro r hr
        obtain ⟨i2, hi2, rfl⟩ := hmem r hr
        rw [(processTask_fixed_fields st.retry st.timeout work startT endT i2).2.1]
        rfl
      have h2 : (run st N work startT endT order).1.task_results.map
          (fun r => orInf r.start_time) =
          ((run st N work startT endT order).1.task_results.map
            (fun r => r.start_time.getD 0)).map PyFloat.fin := by
        rw [List.map_map]
        refine List.map_congr_left (fun r hr => ?_)
        simp only [Function.comp]
        rw [orInf_eq_of_isSome _ (hsome r hr)]
      rw [h2, pyMinList_map_fin _ (by simpa [List.map_eq_nil] using hne)]
    unfold get_statistics
    rw [if_neg (by simpa [List.isEmpty_iff] using hne)]
    refine ⟨_, rfl, ?_, ?_, ?_, ?_⟩
    · exact run_total_tasks st N work startT endT order hmw
    · rw [run_completed_tasks st N work startT endT order hmw]
      simpa using hperm.length_eq
    · rw [sum_status_counts]
      exact hlen
    · dsimp only
      rw [hmax, hmin]
      simp [PyFloat.sub]
  · intro hN0
    subst hN0
    have hord : order = [] := by
      simpa [List.length_eq_zero] using hperm.length_eq
    subst hord
    rw [run_eq st 0 work startT endT [] hmw]
    rfl

/-- Witness for C7: a two-task run (one success, one always-failing) has
total 2, completed 2, breakdown summing to 2, and span
`max(end) − min(start) = 6 − 0`. -/
theorem C7_statistics_after_run_witness :
    ∃ s, get_statistics (run (U := Nat)
      { max_workers := 3, retry := 1, timeout := 10 } 2
      (fun i _ => if i = 0 then Except.ok (some 10) else Except.error { isTimeout := false, msg := "x" })
      (fun i => (i : ℚ)) (fun i => (i : ℚ) + 5) [1, 0]).1 = some s ∧
      s.total = 2 ∧ s.completed = 2 ∧
      (allStatuses.map s.counts).sum = 2 ∧
      s.total_time = PyFloat.fin
        (qMaxList ((run (U := Nat)
          { max_workers := 3, retry := 1, timeout := 10 } 2
          (fun i _ => if i = 0 then Except.ok (some 10) else Except.error { isTimeout := false, msg := "x" })
          (fun i => (i : ℚ)) (fun i => (i : ℚ) + 5) [1, 0]).1.task_results.map
          (fun r => r.end_time.getD 0)) -
         qMinList ((run (U := Nat)
          { max_workers := 3, retry := 1, timeout := 10 } 2
          (fun i _ => if i = 0 then Except.ok (some 10) else Except.error { isTimeout := false, msg := "x" })
          (fun i => (i : ℚ)) (fun i => (i : ℚ) + 5) [1, 0]).1.task_results.map
          (fun r => r.start_time.getD 0))) :=
  (C7_statistics_after_run { max_workers := 3, retry := 1, timeout := 10 } 2
    (fun i _ => if i = 0 then Except.ok (some 10) else Except.error { isTimeout := false, msg := "x" })
    (fun i => (i : ℚ)) (fun i => (i : ℚ) + 5) [1, 0]
    (by norm_num) (by decide)).1 (by norm_num)

/-- **C1.** Contrary to the claim, a task whose execution takes longer than
the configured timeout is NOT marked TIMEOUT: `run` iterates
`as_completed(...)`, which yields a future only after it has settled, so
`future.result(timeout=…)` is always applied to a settled future and its
TimeoutError branch is unreachable.  Concretely (the spec's own scenario,
`retry = 0`, `timeout = 0.01 s`): a single task whose wall-clock span is
1 s and which returns 42 ends COMPLETED — not TIMEOUT — and its value is
delivered. -/
theorem C1_timeout_branch_dead :
    (((run (U := Nat) { max_workers := 1, retry := 0, timeout := 1 / 100 } 1
        (fun _ _ => Except.ok (some 42)) (fun _ => 0) (fun _ => 1)
        [0]).1.task_results.getD 0 (initRecord Nat 0)).status =
      TaskStatus.COMPLETED ∧
     ((run (U := Nat) { max_workers := 1, retry := 0, timeout := 1 / 100 } 1
        (fun _ _ => Except.ok (some 42)) (fun _ => 0) (fun _ => 1)
        [0]).1.task_results.getD 0 (initRecord Nat 0)).status ≠
      TaskStatus.TIMEOUT ∧
     (run (U := Nat) { max_workers := 1, retry := 0, timeout := 1 / 100 } 1
        (fun _ _ => Except.ok (some 42)) (fun _ => 0) (fun _ => 1)
        [0]).2 = Except.ok [some 42]) ∧
    ∀ o : Except PyExc (Option Nat),
      futureResult (1 / 100 : ℚ) true o ≠ WaitResult.timedOut := by
  refine ⟨⟨by decide, by decide, rfl⟩, fun o => ?_⟩
  cases o <;> simp [futureResult]

/-- **C5 counterexample.** Constructing the processor with the malformed
configuration `max_workers = 0` does not raise: `__init__` returns normally
and stores the value unchanged (no coercion, no rejection). -/
theorem C5_counterexample :
    init Nat 0 2 10 =
      Except.ok { max_workers := 0, retry := 2, timeout := 10 } ∧
    (init Nat 0 2 10).isOk = true :=
  ⟨rfl, rfl⟩

/-- **C5 amended.** A malformed configuration (`max_workers ≤ 0`) is
accepted and stored unchanged at construction; the error
(`ThreadPoolExecutor`'s `ValueError`) is raised only when `run()` is called
— still before any task executes: no output list is produced and every
record is freshly created and untouched (PENDING, no result, no times, no
retries). -/
theorem C5_config_error_at_run (st : MultiThreadProcessorWithResult U)
    (N : Nat) (work : Nat → Nat → Except PyExc (Option U))
    (startT endT : Nat → ℚ) (order : List Nat)
    (hmw : st.max_workers ≤ 0) :
    init U st.max_workers st.retry st.timeout = Except.ok
      { max_workers := st.max_workers, retry := st.retry,
        timeout := st.timeout } ∧
    (run st N work startT endT order).2 =
      Except.error "max_workers must be greater than 0" ∧
    ∀ rec ∈ (run st N work startT endT order).1.task_results,
      rec.status = TaskStatus.PENDING ∧ rec.result = none ∧
      rec.error_message = none ∧ rec.start_time = none ∧
      rec.end_time = none ∧ rec.retry_count = 0 := by
  refine ⟨rfl, ?_, ?_⟩
  · unfold run
    rw [if_pos hmw]
  · intro rec hrec
    unfold run at hrec
    rw [if_pos hmw] at hrec
    dsimp only at hrec
    obtain ⟨i2, _, rfl⟩ := List.mem_map.mp hrec
    simp [initRecord]

/-- Witness for C5 (amended): a processor constructed with
`max_workers = 0` runs a two-task batch into the configuration error, with
both records still PENDING. -/
theorem C5_config_error_at_run_witness :
    init Nat 0 2 10 =
      Except.ok { max_workers := 0, retry := 2, timeout := 10 } ∧
    (run (U := Nat) { max_workers := 0, retry := 2, timeout := 10 } 2
      (fun _ _ => Except.ok none) (fun _ => 0) (fun _ => 0) [0, 1]).2 =
      Except.error "max_workers must be greater than 0" ∧
    (((run (U := Nat) { max_workers := 0, retry := 2, timeout := 10 } 2
      (fun _ _ => Except.ok none) (fun _ => 0) (fun _ => 0)
      [0, 1]).1.task_results.getD 0 (initRecord Nat 0)).status =
      TaskStatus.PENDING ∧
     ((run (U := Nat) { max_workers := 0, retry := 2, timeout := 10 } 2
      (fun _ _ => Except.ok none) (fun _ => 0) (fun _ => 0)
      [0, 1]).1.task_results.getD 0 (initRecord Nat 0)).result = none ∧
     ((run (U := Nat) { max_workers := 0, retry := 2, timeout := 10 } 2
      (fun _ _ => Except.ok none) (fun _ => 0) (fun _ => 0)
      [0, 1]).1.task_results.getD 0 (initRecord Nat 0)).error_message = none ∧
     ((run (U := Nat) { max_workers := 0, retry := 2, timeout := 10 } 2
      (fun _ _ => Except.ok none) (fun _ => 0) (fun _ => 0)
      [0, 1]).1.task_results.getD 0 (initRecord Nat 0)).start_time = none ∧
     ((run (U := Nat) { max_workers := 0, retry := 2, timeout := 10 } 2
      (fun _ _ => Except.ok none) (fun _ => 0) (fun _ => 0)
      [0, 1]).1.task_results.getD 0 (initRecord Nat 0)).end_time = none ∧
     ((run (U := Nat) { max_workers := 0, retry := 2, timeout := 10 } 2
      (fun _ _ => Except.ok none) (fun _ => 0) (fun _ => 0)
      [0, 1]).1.task_results.getD 0 (initRecord Nat 0)).retry_count = 0) :=
  ⟨(C5_config_error_at_run { max_workers := 0, retry := 2, timeout := 10 } 2
      (fun _ _ => Except.ok none) (fun _ => 0) (fun _ => 0) [0, 1]
      (by norm_num)).1,
   (C5_config_error_at_run { max_workers := 0, retry := 2, timeout := 10 } 2
      (fun _ _ => Except.ok none) (fun _ => 0) (fun _ => 0) [0, 1]
      (by norm_num)).2.1,
   (C5_config_error_at_run { max_workers := 0, retry := 2, timeout := 10 } 2
      (fun _ _ => Except.ok none) (fun _ => 0) (fun _ => 0) [0, 1]
      (by norm_num)).2.2 _ (by decide)⟩

/-- **C6 counterexample.** `get_task_status` returns
`self.task_results.copy()`, a shallow copy: the snapshot shares the
`TaskResult` objects with the engine's own dict.  A caller that mutates, in
place, the record it reached through the snapshot changes what the engine
reads through its own mapping — here the engine's view of task 0 flips from
COMPLETED to FAILED without the engine writing anything. -/
theorem C6_counterexample :
    dictGet
      (heapWrite
        [({ task_id := 0, status := TaskStatus.COMPLETED } : TaskResult Unit)]
        (((get_task_status { entries := [(0, 0)] }).entries.lookup 0).getD 0)
        { task_id := 0, status := TaskStatus.FAILED })
      { entries := [(0, 0)] } 0 ≠
    dictGet
      [({ task_id := 0, status := TaskStatus.COMPLETED } : TaskResult Unit)]
      { entries := [(0, 0)] } 0 := by
  decide

/-- **C6 amended.** `get_task_status` is a shallow copy: the snapshot is a
new dict object whose id → record-address entries equal the engine's, so
the record objects are shared — an in-place record mutation performed
through an address obtained from the snapshot is visible through the
engine's own dict.  Only the mapping structure itself is independent. -/
theorem C6_shallow_copy (U : Type) (d : TaskDict) (h : Heap U)
    (id addr : Nat) (r' : TaskResult U)
    (hlook : (get_task_status d).entries.lookup id = some addr)
    (haddr : addr < h.length) :
    (get_task_status d).entries = d.entries ∧
    dictGet (heapWrite h addr r') d id = some r' := by
  refine ⟨rfl, ?_⟩
  unfold dictGet heapWrite
  rw [show d.entries.lookup id = some addr from hlook]
  show (List.set h addr r').get? addr = some r'
  rw [List.get?_eq_getElem?, List.getElem?_set_self haddr]

/-- Witness for C6 (amended): concrete one-record heap and dict. -/
theorem C6_shallow_copy_witness :
    (get_task_status { entries := [(0, 0)] }).entries = [(0, 0)] ∧
    dictGet
      (heapWrite
        [({ task_id := 0, status := TaskStatus.COMPLETED } : TaskResult Unit)]
        0 { task_id := 0, status := TaskStatus.FAILED })
      { entries := [(0, 0)] } 0 =
      some { task_id := 0, status := TaskStatus.FAILED } :=
  C6_shallow_copy Unit { entries := [(0, 0)] }
    [{ task_id := 0, status := TaskStatus.COMPLETED }] 0 0
    { task_id := 0, status := TaskStatus.FAILED } rfl (by norm_num)

end Claims

end ThreadPool
